import Mathlib

/-!
Verification of the weighted sample summarization core
(`src/common/samplesummary.rs` of the random-cut-forest Rust crate).

Shallow embedding conventions:
* `f32` / `f64` values are modelled as exact rationals `ℚ`.  A rational always
  models a finite, non-NaN floating value, so the source's `is_finite` /
  `is_nan` tests are embedded as the constant functions below.
* `f64::sqrt` is modelled as `Real.sqrt`; the one field it produces
  (`deviation`) therefore lives in `ℝ`, every other quantity stays in `ℚ`.
  The computable part of the statistics routine is `from_points_core`
  (storing the clamped variance), and `from_points` applies the square root.
* Rust panics (slice index out of bounds) at the public entry points are
  modelled explicitly by the `SummarizeOutcome.panicked` constructor.
* The `while` loop of `SampleSummary::pick` is embedded as structural
  recursion on the fuel `weighted_points.length - start`; the loop guard
  `index + 1 < len` guarantees the fuel is never exhausted early, so the
  fuel version computes exactly what the loop computes.
* The clustering collaborator (`cluster.rs`, not part of the analysed
  sources) is passed to the summarizers as an explicit function argument.
-/

/-- Error type of the argument-validation guard (`crate::errors`):
`check_argument(cond, msg)` aborts the call with a descriptive message. -/
inductive RCFError where
  | invalid_argument (msg : String)
deriving DecidableEq, Repr

/-- Embedding of `check_argument(condition, message)?`: succeed when the
condition holds, otherwise abort with the message. -/
def check_argument (condition : Prop) [Decidable condition] (message : String) :
    Except RCFError Unit :=
  if condition then .ok () else .error (.invalid_argument message)

/-- Coordinate vector of a sample point (`Vec<f32>` / `&[f32]`). -/
abbrev Point := List ℚ

/-- Rationals model exactly the finite floating values, so `is_finite` is
constantly true in the embedding. -/
def is_finite (_ : ℚ) : Bool := true

/-- Rationals model exactly the non-NaN floating values, so `is_nan` is
constantly false in the embedding. -/
def is_nan (_ : ℚ) : Bool := false

/-- On validated (finite, non-NaN) values, `partial_cmp` of the source is
total; on the rationals that model them it always returns `some`. -/
def compare_opt (a b : ℚ) : Option Ordering := some (compare a b)

/-- `MAX_NUMBER_PER_DIMENSION` of the source. -/
def MAX_NUMBER_PER_DIMENSION : ℕ := 5

/-- `LOWER_FRACTION` of the source (`0.1`). -/
def LOWER_FRACTION : ℚ := 1/10

/-- `UPPER_FRACTION` of the source (`0.9`). -/
def UPPER_FRACTION : ℚ := 9/10

/-- Result of the Statistics Engine with the pre-square-root (clamped)
variance; `SampleSummaryCore.toSummary` applies `Real.sqrt` to obtain the
`deviation` field of the source's `SampleSummary`. -/
structure SampleSummaryCore where
  summary_points : List Point
  relative_weight : List ℚ
  total_weight : ℚ
  mean : List ℚ
  median : List ℚ
  upper : List ℚ
  lower : List ℚ
  deviation_sq : List ℚ
deriving DecidableEq, Repr

/-- The `SampleSummary` record of the source; `deviation` carries the
square roots and therefore lives in `ℝ`. -/
structure SampleSummary where
  summary_points : List Point
  relative_weight : List ℚ
  total_weight : ℚ
  mean : List ℚ
  median : List ℚ
  upper : List ℚ
  lower : List ℚ
  deviation : List ℝ

/-- `deviation[j] = sqrt(clamped variance[j])`, the other fields verbatim. -/
noncomputable def SampleSummaryCore.toSummary (c : SampleSummaryCore) : SampleSummary :=
  { summary_points := c.summary_points
    relative_weight := c.relative_weight
    total_weight := c.total_weight
    mean := c.mean
    median := c.median
    upper := c.upper
    lower := c.lower
    deviation := c.deviation_sq.map (fun t : ℚ => Real.sqrt (t : ℝ)) }

/-- The sort comparator `a.0.partial_cmp(&b.0)` of the per-dimension sort:
order weighted values by their first (value) component. -/
def byFirst (a b : ℚ × ℚ) : Prop := a.1 ≤ b.1

instance : DecidableRel byFirst := fun a b => inferInstanceAs (Decidable (a.1 ≤ b.1))

instance : IsTotal (ℚ × ℚ) byFirst := ⟨fun a b => le_total a.1 b.1⟩

instance : IsTrans (ℚ × ℚ) byFirst := ⟨fun _ _ _ h1 h2 => le_trans h1 h2⟩

instance : IsRefl (ℚ × ℚ) byFirst := ⟨fun a => le_refl a.1⟩

/-- `Σ points[i].1` — the total weight of the batch. -/
def total_weight_of (points : List (Point × ℚ)) : ℚ :=
  (points.map (fun x => x.2)).sum

/-- `Σ points[i].1 * points[i].0[j]` (`sum_values[j]` of the source). -/
def sum_values (points : List (Point × ℚ)) (j : ℕ) : ℚ :=
  (points.map (fun x => x.2 * x.1.getD j 0)).sum

/-- `Σ points[i].1 * points[i].0[j] * points[i].0[j]` (`sum_values_sq[j]`). -/
def sum_values_sq (points : List (Point × ℚ)) (j : ℕ) : ℚ :=
  (points.map (fun x => x.2 * x.1.getD j 0 * x.1.getD j 0)).sum

/-- The per-coordinate finiteness checks of the validation loop, for the
indices `0..dimensions` of one point. -/
def validate_coords (v : Point) : List ℕ → Except RCFError Unit
  | [] => .ok ()
  | j :: rest => do
    check_argument ((is_finite (v.getD j 0) && !(is_nan (v.getD j 0))) = true)
      " cannot have NaN or infinite values"
    validate_coords v rest

/-- The validation loop over the points: each point's weight must be
nonnegative, then each of its first `dimensions` coordinates is checked. -/
def validate_points (dimensions : ℕ) : List (Point × ℚ) → Except RCFError Unit
  | [] => .ok ()
  | p :: rest => do
    check_argument (0 ≤ p.2) "point weights have to be non-negative"
    validate_coords p.1 (List.range dimensions)
    validate_points dimensions rest

namespace SampleSummary

/-- Fuel-indexed body of the `while` loop of `SampleSummary::pick`:
advance while `index + 1 < len` and `wp[index].1 + running < weight`,
accumulating the weight.  Called with fuel `len - index` the guard stops
the loop before the fuel ever runs out. -/
def pickAux (wp : List (ℚ × ℚ)) (weight : ℚ) : ℕ → ℕ → ℚ → ℕ × ℚ
  | 0, index, running => (index, running)
  | fuel+1, index, running =>
    if index + 1 < wp.length ∧ (wp.getD index (0, 0)).2 + running < weight then
      pickAux wp weight fuel (index + 1) (running + (wp.getD index (0, 0)).2)
    else (index, running)

/-- `SampleSummary::pick`: scan the sorted weighted sequence from `start`
with accumulated weight `initial_weight`, returning the final cursor and
accumulated weight. -/
def pick (weighted_points : List (ℚ × ℚ)) (weight : ℚ) (start : ℕ)
    (initial_weight : ℚ) : ℕ × ℚ :=
  pickAux weighted_points weight (weighted_points.length - start) start initial_weight

/-- The per-dimension order-statistic computation of `from_points` /
`from_references`: sort the `(value, weight)` pairs of dimension `j`
ascending by value, then run the three chained `pick` scans and read the
values at the returned cursors.  Returns `(lower, median, upper)`. -/
def order_stats_at (points : List (Point × ℚ)) (lower num upper : ℚ) (j : ℕ) :
    ℚ × ℚ × ℚ :=
  let y := List.insertionSort byFirst (points.map (fun x => (x.1.getD j 0, x.2)))
  let first := pick y lower 0 0
  let second := pick y num first.1 first.2
  let third := pick y upper second.1 second.2
  ((y.getD first.1 (0, 0)).1, (y.getD second.1 (0, 0)).1, (y.getD third.1 (0, 0)).1)

/-- Computable content of `SampleSummary::from_points` (the square root of
the clamped variance is deferred to `toSummary`). -/
def from_points_core (dimensions : ℕ) (points : List (Point × ℚ))
    (lower_fraction upper_fraction : ℚ) : Except RCFError SampleSummaryCore := do
  check_argument (points.length > 0) "cannot be empty list"
  check_argument (lower_fraction < 1/2) " has to be less than half"
  check_argument (upper_fraction > 1/2) "has to be larger than half"
  check_argument (dimensions > 0) " cannot have 0 dimensions"
  let total_weight := total_weight_of points
  check_argument (total_weight > 0) "weights cannot be all zero"
  check_argument (is_finite total_weight = true) " cannot have infinite weights"
  validate_points dimensions points
  let mean := (List.range dimensions).map (fun j => sum_values points j / total_weight)
  let deviation_sq := (List.range dimensions).map (fun j =>
    let t : ℚ := sum_values_sq points j / total_weight
      - sum_values points j * sum_values points j / (total_weight * total_weight)
    if t > 0 then t else 0)
  let num := total_weight / 2
  let lower := total_weight * lower_fraction
  let upper := total_weight * upper_fraction
  let lower_vec := (List.range dimensions).map
    (fun j => (order_stats_at points lower num upper j).1)
  let median := (List.range dimensions).map
    (fun j => (order_stats_at points lower num upper j).2.1)
  let upper_vec := (List.range dimensions).map
    (fun j => (order_stats_at points lower num upper j).2.2)
  .ok { summary_points := []
        relative_weight := []
        total_weight := total_weight
        mean := mean
        median := median
        upper := upper_vec
        lower := lower_vec
        deviation_sq := deviation_sq }

/-- Computable content of `SampleSummary::from_references`; the source is a
verbatim duplicate of `from_points` with borrowed coordinate slices, and
borrowing has no semantic counterpart in the embedding, so the body below
duplicates the embedding of the duplicated source. -/
def from_references_core (dimensions : ℕ) (points : List (Point × ℚ))
    (lower_fraction upper_fraction : ℚ) : Except RCFError SampleSummaryCore := do
  check_argument (points.length > 0) "cannot be empty list"
  check_argument (lower_fraction < 1/2) " has to be less than half"
  check_argument (upper_fraction > 1/2) "has to be larger than half"
  check_argument (dimensions > 0) " cannot have 0 dimensions"
  let total_weight := total_weight_of points
  check_argument (total_weight > 0) "weights cannot be all zero"
  check_argument (is_finite total_weight = true) " cannot have infinite weights"
  validate_points dimensions points
  let mean := (List.range dimensions).map (fun j => sum_values points j / total_weight)
  let deviation_sq := (List.range dimensions).map (fun j =>
    let t : ℚ := sum_values_sq points j / total_weight
      - sum_values points j * sum_values points j / (total_weight * total_weight)
    if t > 0 then t else 0)
  let num := total_weight / 2
  let lower := total_weight * lower_fraction
  let upper := total_weight * upper_fraction
  let lower_vec := (List.range dimensions).map
    (fun j => (order_stats_at points lower num upper j).1)
  let median := (List.range dimensions).map
    (fun j => (order_stats_at points lower num upper j).2.1)
  let upper_vec := (List.range dimensions).map
    (fun j => (order_stats_at points lower num upper j).2.2)
  .ok { summary_points := []
        relative_weight := []
        total_weight := total_weight
        mean := mean
        median := median
        upper := upper_vec
        lower := lower_vec
        deviation_sq := deviation_sq }

/-- `SampleSummary::from_points` with the square roots applied. -/
noncomputable def from_points (dimensions : ℕ) (points : List (Point × ℚ))
    (lower_fraction upper_fraction : ℚ) : Except RCFError SampleSummary :=
  (from_points_core dimensions points lower_fraction upper_fraction).map
    SampleSummaryCore.toSummary

/-- `SampleSummary::from_references` with the square roots applied. -/
noncomputable def from_references (dimensions : ℕ) (points : List (Point × ℚ))
    (lower_fraction upper_fraction : ℚ) : Except RCFError SampleSummary :=
  (from_references_core dimensions points lower_fraction upper_fraction).map
    SampleSummaryCore.toSummary

/-- `SampleSummary::add_typical`: replace `summary_points` and
`relative_weight` together. -/
def add_typical (s : SampleSummary) (summary_points : List Point)
    (relative_weight : List ℚ) : SampleSummary :=
  { s with summary_points := summary_points, relative_weight := relative_weight }

end SampleSummary

/-- Modelled from the spec: the clustering collaborator (`cluster.rs`, not
among the analysed sources) returns weighted centers, each holding an
ordered list of representative candidate vectors and a nonnegative weight;
`representative()` / `representatives()[0].0` select the first candidate. -/
structure Center where
  representative_candidates : List Point
  weight : ℚ

/-- Modelled from the spec: the first representative candidate vector of a
center, as selected by both summarizers. -/
def Center.representative (c : Center) : Point :=
  c.representative_candidates.getD 0 []

/-- The comparator `o2.weight().partial_cmp(&o1.weight())` of the
summarizers: order centers by weight descending. -/
def byWeightDesc (a b : Center) : Prop := b.weight ≤ a.weight

instance : DecidableRel byWeightDesc := fun a b => inferInstanceAs (Decidable (b.weight ≤ a.weight))

instance : IsTotal Center byWeightDesc := ⟨fun a b => le_total b.weight a.weight⟩

instance : IsTrans Center byWeightDesc := ⟨fun _ _ _ h1 h2 => le_trans h2 h1⟩

instance : IsRefl Center byWeightDesc := ⟨fun a => le_refl a.weight⟩

/-- Outcome of a public entry point: the Rust function either panics
(slice index out of bounds), returns `Err`, or returns `Ok`. -/
inductive SummarizeOutcome where
  | panicked
  | failed (e : RCFError)
  | ok (s : SampleSummary)

/-- `summarize`: the owned-points public entry point.  The clustering
collaborator `single_centroid_cluster_weighted_vec_with_distance_over_slices`
is an explicit argument (it lives outside the analysed sources).  Note that
`points[0].0.len()` is evaluated before any validation, so an empty batch
panics. -/
noncomputable def summarize
    (cluster_fn : List (Point × ℚ) → (Point → Point → ℚ) → ℕ → Bool →
      Except RCFError (List Center))
    (points : List (Point × ℚ)) (distance : Point → Point → ℚ)
    (max_number : ℕ) (parallel_enabled : Bool) : SummarizeOutcome :=
  match points with
  | [] => .panicked
  | p0 :: _ =>
    let dimensions := p0.1.length
    match SampleSummary.from_points dimensions points LOWER_FRACTION UPPER_FRACTION with
    | .error e => .failed e
    | .ok summary =>
      if max_number > 0 then
        let max_allowed := min (dimensions * MAX_NUMBER_PER_DIMENSION) max_number
        match cluster_fn points distance max_allowed parallel_enabled with
        | .error e => .failed e
        | .ok list =>
          let sorted := List.insertionSort byWeightDesc list
          let center_sum : ℚ := (sorted.map Center.weight).sum
          let summary_points := sorted.map (fun c => c.representative)
          let relative_weight := sorted.map (fun c => c.weight / center_sum)
          .ok (summary.add_typical summary_points relative_weight)
      else .ok summary

/-- `multi_summarize_ref`: the referenced-points public entry point, with
the multi-representative clustering collaborator `multi_cluster_as_weighted_ref`
as an explicit argument (its extra arguments `number_of_representatives`,
`shrinkage` and the literal `false` are forwarded opaquely).  As in
`summarize`, `points[0].0.len()` is evaluated first, so an empty batch
panics. -/
noncomputable def multi_summarize_ref
    (cluster_fn : List (Point × ℚ) → (Point → Point → ℚ) → ℕ → ℚ → Bool → ℕ → Bool →
      Except RCFError (List Center))
    (points : List (Point × ℚ)) (distance : Point → Point → ℚ)
    (number_of_representatives : ℕ) (shrinkage : ℚ)
    (max_number : ℕ) (parallel_enabled : Bool) : SummarizeOutcome :=
  match points with
  | [] => .panicked
  | p0 :: _ =>
    let dimensions := p0.1.length
    match SampleSummary.from_references dimensions points LOWER_FRACTION UPPER_FRACTION with
    | .error e => .failed e
    | .ok summary =>
      if max_number > 0 then
        let max_allowed := min (dimensions * MAX_NUMBER_PER_DIMENSION) max_number
        match cluster_fn points distance number_of_representatives shrinkage false
            max_allowed parallel_enabled with
        | .error e => .failed e
        | .ok list =>
          let sorted := List.insertionSort byWeightDesc list
          let center_sum : ℚ := (sorted.map Center.weight).sum
          let summary_points := sorted.map (fun c => c.representative)
          let relative_weight := sorted.map (fun c => c.weight / center_sum)
          .ok (summary.add_typical summary_points relative_weight)
      else .ok summary

/-! ### Basic `Except` reduction lemmas -/

lemma except_ok_bind {α β : Type} (a : α) (f : α → Except RCFError β) :
    (Except.ok a >>= f) = f a := rfl

lemma except_error_bind {α β : Type} (e : RCFError) (f : α → Except RCFError β) :
    ((Except.error e : Except RCFError α) >>= f) = Except.error e := rfl

lemma check_argument_pos {c : Prop} [Decidable c] (h : c) (m : String) :
    check_argument c m = .ok () := if_pos h

lemma check_argument_neg {c : Prop} [Decidable c] (h : ¬c) (m : String) :
    check_argument c m = .error (.invalid_argument m) := if_neg h

namespace SampleSummary

/-! ### The weighted-order-statistic scan -/

/-- Sum of the weights of the entries in positions `[s, t)`. -/
def range_weight (wp : List (ℚ × ℚ)) (s t : ℕ) : ℚ :=
  (((wp.take t).drop s).map Prod.snd).sum

lemma range_weight_self (wp : List (ℚ × ℚ)) (s : ℕ) : range_weight wp s s = 0 := by
  unfold range_weight
  rw [List.drop_eq_nil_of_le (by simp)]
  simp

lemma range_weight_step (wp : List (ℚ × ℚ)) (s t : ℕ) (hs : s < wp.length)
    (hst : s < t) :
    range_weight wp s t = (wp.getD s (0, 0)).2 + range_weight wp (s + 1) t := by
  unfold range_weight
  have hlen : s < (wp.take t).length := by simp; omega
  rw [List.drop_eq_getElem_cons hlen]
  simp only [List.map_cons, List.sum_cons]
  congr 1
  rw [List.getElem_take wp, List.getD_eq_getElem wp (0, 0) hs]

lemma pickAux_start_le (wp : List (ℚ × ℚ)) (w : ℚ) (fuel : ℕ) :
    ∀ index running, index ≤ (pickAux wp w fuel index running).1 := by
  induction fuel with
  | zero => intro index running; exact le_refl _
  | succ fuel ih =>
    intro index running
    simp only [pickAux]
    split
    · exact le_trans (Nat.le_succ index) (ih (index + 1) _)
    · exact le_refl _

lemma pickAux_lt_length (wp : List (ℚ × ℚ)) (w : ℚ) (fuel : ℕ) :
    ∀ index running, index < wp.length →
      (pickAux wp w fuel index running).1 < wp.length := by
  induction fuel with
  | zero => intro index running h; exact h
  | succ fuel ih =>
    intro index running h
    simp only [pickAux]
    split
    · next hg => exact ih (index + 1) _ hg.1
    · exact h

lemma pickAux_spec (wp : List (ℚ × ℚ)) (w : ℚ) (fuel : ℕ) :
    ∀ index running, index < wp.length → wp.length ≤ index + fuel →
    index ≤ (pickAux wp w fuel index running).1 ∧
    (pickAux wp w fuel index running).1 < wp.length ∧
    (pickAux wp w fuel index running).2
      = running + range_weight wp index (pickAux wp w fuel index running).1 ∧
    (∀ j, index ≤ j → j < (pickAux wp w fuel index running).1 →
      (wp.getD j (0, 0)).2 + (running + range_weight wp index j) < w) ∧
    ((pickAux wp w fuel index running).1 + 1 = wp.length ∨
      ¬ ((wp.getD (pickAux wp w fuel index running).1 (0, 0)).2
          + (pickAux wp w fuel index running).2 < w)) := by
  induction fuel with
  | zero => intro index running h1 h2; omega
  | succ fuel ih =>
    intro index running h1 h2
    by_cases hg : index + 1 < wp.length ∧ (wp.getD index (0, 0)).2 + running < w
    · have hrec := ih (index + 1) (running + (wp.getD index (0, 0)).2) hg.1 (by omega)
      simp only [pickAux, if_pos hg]
      obtain ⟨ha, hb, hc, hd, he⟩ := hrec
      set res := pickAux wp w fuel (index + 1) (running + (wp.getD index (0, 0)).2)
        with hres
      refine ⟨by omega, hb, ?_, ?_, he⟩
      · rw [hc, range_weight_step wp index res.1 h1 (by omega)]; ring
      · intro j hj1 hj2
        rcases Nat.eq_or_lt_of_le hj1 with rfl | hj
        · rw [range_weight_self]
          simpa using hg.2
        · have hdj := hd j hj hj2
          rw [range_weight_step wp index j h1 hj]
          linarith
    · simp only [pickAux, if_neg hg]
      refine ⟨le_refl _, h1, by rw [range_weight_self]; ring, by omega, ?_⟩
      rcases not_and_or.mp hg with h | h
      · left; omega
      · right; exact h

lemma pick_start_le (wp : List (ℚ × ℚ)) (w : ℚ) (start : ℕ) (init : ℚ) :
    start ≤ (pick wp w start init).1 :=
  pickAux_start_le wp w _ start init

lemma pick_lt_length (wp : List (ℚ × ℚ)) (w : ℚ) (start : ℕ) (init : ℚ)
    (h : start < wp.length) : (pick wp w start init).1 < wp.length :=
  pickAux_lt_length wp w _ start init h

lemma pick_spec (wp : List (ℚ × ℚ)) (w : ℚ) (start : ℕ) (init : ℚ)
    (h : start < wp.length) :
    start ≤ (pick wp w start init).1 ∧
    (pick wp w start init).1 < wp.length ∧
    (pick wp w start init).2
      = init + range_weight wp start (pick wp w start init).1 ∧
    (∀ j, start ≤ j → j < (pick wp w start init).1 →
      (wp.getD j (0, 0)).2 + (init + range_weight wp start j) < w) ∧
    ((pick wp w start init).1 + 1 = wp.length ∨
      ¬ ((wp.getD (pick wp w start init).1 (0, 0)).2 + (pick wp w start init).2 < w)) :=
  pickAux_spec wp w (wp.length - start) start init h (by omega)

end SampleSummary

/-! ### Generic access lemmas -/

lemma getD_range_map {α : Type} (f : ℕ → α) (d j : ℕ) (dflt : α) (hj : j < d) :
    ((List.range d).map f).getD j dflt = f j := by
  have hlen : j < ((List.range d).map f).length := by simp [hj]
  rw [List.getD_eq_getElem _ dflt hlen, List.getElem_map, List.getElem_range]

lemma sorted_getD_fst_mono {l : List (ℚ × ℚ)} (hs : List.Sorted byFirst l) {i j : ℕ}
    (hij : i ≤ j) (hj : j < l.length) :
    (l.getD i (0, 0)).1 ≤ (l.getD j (0, 0)).1 := by
  have hi : i < l.length := lt_of_le_of_lt hij hj
  rw [List.getD_eq_getElem _ _ hi, List.getD_eq_getElem _ _ hj]
  have h := hs.rel_get_of_le (a := ⟨i, hi⟩) (b := ⟨j, hj⟩) (Fin.mk_le_mk.mpr hij)
  simpa [byFirst] using h

/-! ### Validation lemmas -/

lemma validate_coords_ok (v : Point) : ∀ l : List ℕ, validate_coords v l = .ok () := by
  intro l
  induction l with
  | nil => rfl
  | cons j rest ih =>
    simp only [validate_coords]
    rw [check_argument_pos (by simp [is_finite, is_nan]), except_ok_bind, ih]

lemma validate_points_eq (d : ℕ) : ∀ points, validate_points d points =
    if points.any (fun p => decide (p.2 < 0)) = true then
      .error (.invalid_argument "point weights have to be non-negative")
    else .ok () := by
  intro points
  induction points with
  | nil => rfl
  | cons p rest ih =>
    by_cases hp : 0 ≤ p.2
    · have hnp : ¬ (p.2 < 0) := not_lt.mpr hp
      simp only [validate_points]
      rw [check_argument_pos hp, except_ok_bind, validate_coords_ok, except_ok_bind, ih]
      rw [List.any_cons, decide_eq_false hnp]
      simp only [Bool.false_or]
    · have hneg : p.2 < 0 := not_le.mp hp
      simp only [validate_points]
      rw [check_argument_neg hp, except_error_bind]
      simp [hneg]

namespace SampleSummary

/-- The first failing validation check of `from_points_core` /
`from_references_core`, in the source's order.  On rationals the two
finiteness checks (total weight finite, coordinates finite and not NaN)
can never fail, so the only error the point-scanning loop can report is
the negative-weight one. -/
def first_violation (dimensions : ℕ) (points : List (Point × ℚ))
    (lower_fraction upper_fraction : ℚ) : Option RCFError :=
  if points.length > 0 then
    if lower_fraction < 1/2 then
      if upper_fraction > 1/2 then
        if dimensions > 0 then
          if total_weight_of points > 0 then
            if is_finite (total_weight_of points) = true then
              if points.any (fun p => decide (p.2 < 0)) = true then
                some (.invalid_argument "point weights have to be non-negative")
              else none
            else some (.invalid_argument " cannot have infinite weights")
          else some (.invalid_argument "weights cannot be all zero")
        else some (.invalid_argument " cannot have 0 dimensions")
      else some (.invalid_argument "has to be larger than half")
    else some (.invalid_argument " has to be less than half")
  else some (.invalid_argument "cannot be empty list")

/-- The record produced by the success branch of `from_points_core`. -/
def stats_of (dimensions : ℕ) (points : List (Point × ℚ))
    (lower_fraction upper_fraction : ℚ) : SampleSummaryCore :=
  let total_weight := total_weight_of points
  let num := total_weight / 2
  let lower := total_weight * lower_fraction
  let upper := total_weight * upper_fraction
  { summary_points := []
    relative_weight := []
    total_weight := total_weight
    mean := (List.range dimensions).map (fun j => sum_values points j / total_weight)
    median := (List.range dimensions).map
      (fun j => (order_stats_at points lower num upper j).2.1)
    upper := (List.range dimensions).map
      (fun j => (order_stats_at points lower num upper j).2.2)
    lower := (List.range dimensions).map
      (fun j => (order_stats_at points lower num upper j).1)
    deviation_sq := (List.range dimensions).map (fun j =>
      let t : ℚ := sum_values_sq points j / total_weight
        - sum_values points j * sum_values points j / (total_weight * total_weight)
      if t > 0 then t else 0) }

lemma from_points_core_eq (d : ℕ) (points : List (Point × ℚ)) (lf uf : ℚ) :
    from_points_core d points lf uf =
      match first_violation d points lf uf with
      | some e => .error e
      | none => .ok (stats_of d points lf uf) := by
  simp only [from_points_core, first_violation]
  by_cases h1 : points.length > 0
  case neg => rw [check_argument_neg h1, except_error_bind, if_neg h1]
  case pos =>
  rw [check_argument_pos h1, except_ok_bind, if_pos h1]
  by_cases h2 : lf < 1/2
  case neg => rw [check_argument_neg h2, except_error_bind, if_neg h2]
  case pos =>
  rw [check_argument_pos h2, except_ok_bind, if_pos h2]
  by_cases h3 : uf > 1/2
  case neg => rw [check_argument_neg h3, except_error_bind, if_neg h3]
  case pos =>
  rw [check_argument_pos h3, except_ok_bind, if_pos h3]
  by_cases h4 : d > 0
  case neg => rw [check_argument_neg h4, except_error_bind, if_neg h4]
  case pos =>
  rw [check_argument_pos h4, except_ok_bind, if_pos h4]
  by_cases h5 : total_weight_of points > 0
  case neg => rw [check_argument_neg h5, except_error_bind, if_neg h5]
  case pos =>
  rw [check_argument_pos h5, except_ok_bind, if_pos h5]
  rw [check_argument_pos (show is_finite (total_weight_of points) = true from rfl),
    except_ok_bind, if_pos (show is_finite (total_weight_of points) = true from rfl)]
  by_cases h7 : points.any (fun p => decide (p.2 < 0)) = true
  case pos => rw [validate_points_eq, if_pos h7, except_error_bind, if_pos h7]
  case neg =>
    rw [validate_points_eq, if_neg h7, except_ok_bind, if_neg h7]
    rfl

lemma first_violation_none (d : ℕ) (points : List (Point × ℚ)) (lf uf : ℚ)
    (h1 : 0 < points.length) (h2 : lf < 1/2) (h3 : 1/2 < uf) (h4 : 0 < d)
    (h5 : 0 < total_weight_of points) (h6 : ∀ p ∈ points, 0 ≤ p.2) :
    first_violation d points lf uf = none := by
  have hany : points.any (fun p => decide (p.2 < 0)) = false := by
    simp only [List.any_eq_false, decide_eq_true_eq]
    intro p hp
    exact not_lt.mpr (h6 p hp)
  unfold first_violation
  rw [if_pos h1, if_pos h2, if_pos h3, if_pos h4, if_pos h5,
    if_pos (show is_finite (total_weight_of points) = true from rfl),
    if_neg (by simp [hany])]

lemma from_points_core_ok (d : ℕ) (points : List (Point × ℚ)) (lf uf : ℚ)
    (h1 : 0 < points.length) (h2 : lf < 1/2) (h3 : 1/2 < uf) (h4 : 0 < d)
    (h5 : 0 < total_weight_of points) (h6 : ∀ p ∈ points, 0 ≤ p.2) :
    from_points_core d points lf uf = .ok (stats_of d points lf uf) := by
  rw [from_points_core_eq, first_violation_none d points lf uf h1 h2 h3 h4 h5 h6]

lemma from_references_core_eq_points (d : ℕ) (points : List (Point × ℚ)) (lf uf : ℚ) :
    from_references_core d points lf uf = from_points_core d points lf uf := rfl

lemma from_references_eq_points (d : ℕ) (points : List (Point × ℚ)) (lf uf : ℚ) :
    from_references d points lf uf = from_points d points lf uf := rfl

lemma from_points_ok (d : ℕ) (points : List (Point × ℚ)) (lf uf : ℚ)
    (h1 : 0 < points.length) (h2 : lf < 1/2) (h3 : 1/2 < uf) (h4 : 0 < d)
    (h5 : 0 < total_weight_of points) (h6 : ∀ p ∈ points, 0 ≤ p.2) :
    from_points d points lf uf = .ok (stats_of d points lf uf).toSummary := by
  unfold from_points
  rw [from_points_core_ok d points lf uf h1 h2 h3 h4 h5 h6]
  rfl

lemma from_points_error_iff (d : ℕ) (points : List (Point × ℚ)) (lf uf : ℚ)
    (e : RCFError) :
    from_points d points lf uf = .error e ↔
      from_points_core d points lf uf = .error e := by
  unfold from_points
  cases h : from_points_core d points lf uf <;> simp [Except.map]

end SampleSummary

namespace SampleSummary

lemma order_stats_at_chain (points : List (Point × ℚ)) (lower num upper : ℚ) (j : ℕ)
    (h : 0 < points.length) :
    (order_stats_at points lower num upper j).1
        ≤ (order_stats_at points lower num upper j).2.1 ∧
    (order_stats_at points lower num upper j).2.1
        ≤ (order_stats_at points lower num upper j).2.2 := by
  simp only [order_stats_at]
  set y := List.insertionSort byFirst (points.map (fun x => (x.1.getD j 0, x.2))) with hy
  have hylen : y.length = points.length := by
    rw [hy, List.length_insertionSort, List.length_map]
  have hsorted : List.Sorted byFirst y := by
    rw [hy]; exact List.sorted_insertionSort byFirst _
  have h0 : 0 < y.length := by omega
  have i1lt : (pick y lower 0 0).1 < y.length := pick_lt_length y lower 0 0 h0
  have i2ge : (pick y lower 0 0).1
      ≤ (pick y num (pick y lower 0 0).1 (pick y lower 0 0).2).1 :=
    pick_start_le y num _ _
  have i2lt : (pick y num (pick y lower 0 0).1 (pick y lower 0 0).2).1 < y.length :=
    pick_lt_length y num _ _ i1lt
  have i3ge := pick_start_le y upper
    (pick y num (pick y lower 0 0).1 (pick y lower 0 0).2).1
    (pick y num (pick y lower 0 0).1 (pick y lower 0 0).2).2
  have i3lt := pick_lt_length y upper
    (pick y num (pick y lower 0 0).1 (pick y lower 0 0).2).1
    (pick y num (pick y lower 0 0).1 (pick y lower 0 0).2).2 i2lt
  exact ⟨sorted_getD_fst_mono hsorted i2ge i2lt, sorted_getD_fst_mono hsorted i3ge i3lt⟩

/-- Claim C2: in the three-target weighted-order-statistic scan `pick`, for
every weighted sequence, target weight, start index below the sequence
length and initial accumulated weight, the cursor advances only while
`(accumulated weight) + (next element's weight) < target` (accumulating the
weights it passes), and never advances past the last element even when the
target weight is not reached; it stops at the last element or at the first
position where the guard fails, and the element at the final cursor
position is the selected order statistic. -/
theorem claim_C2_pick_scan (weighted_points : List (ℚ × ℚ)) (weight : ℚ) (start : ℕ)
    (initial_weight : ℚ) (h : start < weighted_points.length) :
    start ≤ (pick weighted_points weight start initial_weight).1 ∧
    (pick weighted_points weight start initial_weight).1 < weighted_points.length ∧
    (pick weighted_points weight start initial_weight).2
      = initial_weight
        + range_weight weighted_points start
            (pick weighted_points weight start initial_weight).1 ∧
    (∀ j, start ≤ j → j < (pick weighted_points weight start initial_weight).1 →
      (weighted_points.getD j (0, 0)).2
          + (initial_weight + range_weight weighted_points start j) < weight) ∧
    ((pick weighted_points weight start initial_weight).1 + 1 = weighted_points.length ∨
      ¬ ((weighted_points.getD (pick weighted_points weight start initial_weight).1 (0, 0)).2
          + (pick weighted_points weight start initial_weight).2 < weight)) :=
  pick_spec weighted_points weight start initial_weight h

/-- Witness for C2 at the concrete sequence `[(0,1),(10,1)]`, target `9/5`,
start `0`, initial weight `0`. -/
theorem claim_C2_pick_scan_witness :
    0 < ([((0:ℚ), (1:ℚ)), (10, 1)] : List (ℚ × ℚ)).length ∧
    (0 ≤ (pick [((0:ℚ), (1:ℚ)), (10, 1)] (9/5) 0 0).1 ∧
    (pick [((0:ℚ), (1:ℚ)), (10, 1)] (9/5) 0 0).1
        < ([((0:ℚ), (1:ℚ)), (10, 1)] : List (ℚ × ℚ)).length ∧
    (pick [((0:ℚ), (1:ℚ)), (10, 1)] (9/5) 0 0).2
      = 0 + range_weight [((0:ℚ), (1:ℚ)), (10, 1)] 0
            (pick [((0:ℚ), (1:ℚ)), (10, 1)] (9/5) 0 0).1 ∧
    (∀ j, 0 ≤ j → j < (pick [((0:ℚ), (1:ℚ)), (10, 1)] (9/5) 0 0).1 →
      (([((0:ℚ), (1:ℚ)), (10, 1)] : List (ℚ × ℚ)).getD j (0, 0)).2
          + (0 + range_weight [((0:ℚ), (1:ℚ)), (10, 1)] 0 j) < 9/5) ∧
    ((pick [((0:ℚ), (1:ℚ)), (10, 1)] (9/5) 0 0).1 + 1
        = ([((0:ℚ), (1:ℚ)), (10, 1)] : List (ℚ × ℚ)).length ∨
      ¬ ((([((0:ℚ), (1:ℚ)), (10, 1)] : List (ℚ × ℚ)).getD
            (pick [((0:ℚ), (1:ℚ)), (10, 1)] (9/5) 0 0).1 (0, 0)).2
          + (pick [((0:ℚ), (1:ℚ)), (10, 1)] (9/5) 0 0).2 < 9/5))) :=
  ⟨by simp, claim_C2_pick_scan [((0:ℚ), (1:ℚ)), (10, 1)] (9/5) 0 0 (by simp)⟩

/-- Claim C9: the owned-points statistics path (`from_points`) and the
referenced-points path (`from_references`) produce identical results for
every dimensions value, fractions and batch: the same error on invalid
input and the same statistics on valid input.  Ownership/borrowing has no
semantic counterpart in the embedding, whose two verbatim-duplicated
routines are definitionally equal. -/
theorem claim_C9_owned_ref_equal (dimensions : ℕ) (points : List (Point × ℚ))
    (lower_fraction upper_fraction : ℚ) :
    from_references dimensions points lower_fraction upper_fraction
      = from_points dimensions points lower_fraction upper_fraction := rfl

/-- Claim C10: after validation, the per-dimension sort comparator never
fails (on the rationals that model validated finite, non-NaN coordinates,
comparison is total), and the three chained `pick` cursors are in bounds
for the sorted nonempty sequence, so the subsequent indexing cannot
panic. -/
theorem claim_C10_no_panic (points : List (Point × ℚ)) (lower num upper : ℚ) (j : ℕ)
    (h : 0 < points.length) :
    (∀ a b : ℚ, (compare_opt a b).isSome = true) ∧
    (let y := List.insertionSort byFirst (points.map (fun x => (x.1.getD j 0, x.2)))
     let first := pick y lower 0 0
     let second := pick y num first.1 first.2
     let third := pick y upper second.1 second.2
     first.1 < y.length ∧ second.1 < y.length ∧ third.1 < y.length) := by
  refine ⟨fun a b => rfl, ?_⟩
  dsimp only
  set y := List.insertionSort byFirst (points.map (fun x => (x.1.getD j 0, x.2))) with hy
  have hylen : y.length = points.length := by
    rw [hy, List.length_insertionSort, List.length_map]
  have h0 : 0 < y.length := by omega
  have i1 := pick_lt_length y lower 0 0 h0
  have i2 := pick_lt_length y num (pick y lower 0 0).1 (pick y lower 0 0).2 i1
  exact ⟨i1, i2, pick_lt_length y upper _ _ i2⟩

/-- Witness for C10 at the singleton batch `[([0], 1)]`, dimension `0`. -/
theorem claim_C10_no_panic_witness :
    0 < ([([0], 1)] : List (Point × ℚ)).length ∧
    ((∀ a b : ℚ, (compare_opt a b).isSome = true) ∧
    (let y := List.insertionSort byFirst
        (([([0], 1)] : List (Point × ℚ)).map (fun x => (x.1.getD 0 0, x.2)))
     let first := pick y (1/10) 0 0
     let second := pick y (1/2) first.1 first.2
     let third := pick y (9/10) second.1 second.2
     first.1 < y.length ∧ second.1 < y.length ∧ third.1 < y.length)) :=
  ⟨by simp, claim_C10_no_panic [([0], 1)] (1/10) (1/2) (9/10) 0 (by simp)⟩

end SampleSummary

namespace SampleSummary

/-- Claim C3: for every batch and fractions satisfying the preconditions,
the statistics computation succeeds and `lower[j] ≤ median[j] ≤ upper[j]`
holds in every dimension. -/
theorem claim_C3_quantile_order (dimensions : ℕ) (points : List (Point × ℚ))
    (lower_fraction upper_fraction : ℚ)
    (h1 : 0 < points.length) (h2 : lower_fraction < 1/2) (h3 : 1/2 < upper_fraction)
    (h4 : 0 < dimensions) (h5 : 0 < total_weight_of points)
    (h6 : ∀ p ∈ points, 0 ≤ p.2) :
    ∃ s, from_points dimensions points lower_fraction upper_fraction = .ok s ∧
      ∀ j, j < dimensions →
        s.lower.getD j 0 ≤ s.median.getD j 0 ∧ s.median.getD j 0 ≤ s.upper.getD j 0 := by
  refine ⟨(stats_of dimensions points lower_fraction upper_fraction).toSummary,
    from_points_ok dimensions points _ _ h1 h2 h3 h4 h5 h6, ?_⟩
  intro j hj
  simp only [SampleSummaryCore.toSummary, stats_of]
  rw [getD_range_map _ _ _ _ hj, getD_range_map _ _ _ _ hj, getD_range_map _ _ _ _ hj]
  exact order_stats_at_chain points _ _ _ j h1

/-- Witness for C3 at the batch `[([0], 1), ([10], 1)]` with fractions
`1/10` and `9/10` and one dimension. -/
theorem claim_C3_quantile_order_witness :
    0 < ([([0], 1), ([10], 1)] : List (Point × ℚ)).length ∧
    (∃ s, from_points 1 [([0], 1), ([10], 1)] (1/10) (9/10) = .ok s ∧
      ∀ j, j < 1 →
        s.lower.getD j 0 ≤ s.median.getD j 0 ∧ s.median.getD j 0 ≤ s.upper.getD j 0) :=
  ⟨by simp,
    claim_C3_quantile_order 1 [([0], 1), ([10], 1)] (1/10) (9/10)
      (by simp) (by norm_num) (by norm_num) (by norm_num)
      (by norm_num [total_weight_of]) (by norm_num)⟩

/-- Claim C6: for every batch satisfying the preconditions, the computed
`deviation[j]` is nonnegative in every dimension (the variance is clamped
to `0` before the square root). -/
theorem claim_C6_deviation_nonneg (dimensions : ℕ) (points : List (Point × ℚ))
    (lower_fraction upper_fraction : ℚ)
    (h1 : 0 < points.length) (h2 : lower_fraction < 1/2) (h3 : 1/2 < upper_fraction)
    (h4 : 0 < dimensions) (h5 : 0 < total_weight_of points)
    (h6 : ∀ p ∈ points, 0 ≤ p.2) :
    ∃ s, from_points dimensions points lower_fraction upper_fraction = .ok s ∧
      s.deviation.length = dimensions ∧
      ∀ j, j < dimensions → 0 ≤ s.deviation.getD j 0 := by
  refine ⟨(stats_of dimensions points lower_fraction upper_fraction).toSummary,
    from_points_ok dimensions points _ _ h1 h2 h3 h4 h5 h6, ?_, ?_⟩
  · simp [SampleSummaryCore.toSummary, stats_of]
  · intro j hj
    simp only [SampleSummaryCore.toSummary, stats_of]
    rw [List.map_map, getD_range_map _ _ _ _ hj]
    exact Real.sqrt_nonneg _

/-- Witness for C6 at the batch `[([0], 1), ([10], 1)]` with fractions
`1/10` and `9/10` and one dimension. -/
theorem claim_C6_deviation_nonneg_witness :
    0 < ([([0], 1), ([10], 1)] : List (Point × ℚ)).length ∧
    (∃ s, from_points 1 [([0], 1), ([10], 1)] (1/10) (9/10) = .ok s ∧
      s.deviation.length = 1 ∧ ∀ j, j < 1 → 0 ≤ s.deviation.getD j 0) :=
  ⟨by simp,
    claim_C6_deviation_nonneg 1 [([0], 1), ([10], 1)] (1/10) (9/10)
      (by simp) (by norm_num) (by norm_num) (by norm_num)
      (by norm_num [total_weight_of]) (by norm_num)⟩

end SampleSummary

namespace SampleSummary

/-- Counterexample to claim C4 as stated: the batch `[([0], -1)]` contains a
negative weight, yet the reported error is the total-weight error
(`"weights cannot be all zero"`), not the negative-weight error — the code
checks the total weight before scanning the per-point weights. -/
theorem claim_C4_counterexample :
    from_points 1 [([0], -1)] (1/10) (9/10)
        = .error (.invalid_argument "weights cannot be all zero") ∧
    RCFError.invalid_argument "weights cannot be all zero"
        ≠ RCFError.invalid_argument "point weights have to be non-negative" := by
  constructor
  · refine (from_points_error_iff _ _ _ _ _).mpr ?_
    rw [from_points_core_eq]
    norm_num [first_violation, total_weight_of]
  · decide

/-- Claim C4 (amended): the statistics computation validates its
preconditions in the order: batch nonempty; `lower_fraction < 0.5`;
`upper_fraction > 0.5`; `dimensions > 0`; total weight `> 0`; total weight
finite; then it scans the points in order, checking each point's weight
`≥ 0` before that point's coordinates.  The reported error is the first in
this order (`first_violation`); in particular a negative weight that makes
the total weight nonpositive reports the total-weight error, not the
negative-weight error. -/
theorem claim_C4_validation_order (dimensions : ℕ) (points : List (Point × ℚ))
    (lower_fraction upper_fraction : ℚ) (e : RCFError) :
    (from_points dimensions points lower_fraction upper_fraction = .error e ↔
      first_violation dimensions points lower_fraction upper_fraction = some e) ∧
    (from_references dimensions points lower_fraction upper_fraction = .error e ↔
      first_violation dimensions points lower_fraction upper_fraction = some e) := by
  have hcore :
      from_points_core dimensions points lower_fraction upper_fraction = .error e ↔
        first_violation dimensions points lower_fraction upper_fraction = some e := by
    rw [from_points_core_eq]
    cases h : first_violation dimensions points lower_fraction upper_fraction <;> simp
  exact ⟨(from_points_error_iff _ _ _ _ _).trans hcore,
    (from_references_eq_points _ _ _ _ ▸ (from_points_error_iff _ _ _ _ _)).trans hcore⟩

/-- Claim C5: the concrete scenario `[([0], 1), ([10], 1)]` with fractions
`1/10` and `9/10` in one dimension: total weight `2`, mean `[5]`,
deviation `[5]`, lower `[0]`, median `[0]`, upper `[10]`. -/
theorem claim_C5_concrete_scenario :
    ∃ s, from_points 1 [([0], 1), ([10], 1)] (1/10) (9/10) = .ok s ∧
      s.total_weight = 2 ∧ s.mean = [5] ∧ s.deviation = [(5 : ℝ)] ∧
      s.lower = [0] ∧ s.median = [0] ∧ s.upper = [10] := by
  refine ⟨(stats_of 1 [([0], 1), ([10], 1)] (1/10) (9/10)).toSummary,
    from_points_ok 1 [([0], 1), ([10], 1)] (1/10) (9/10)
      (by simp) (by norm_num) (by norm_num) (by norm_num)
      (by norm_num [total_weight_of]) (by norm_num), ?_, ?_, ?_, ?_, ?_, ?_⟩
  · norm_num [SampleSummaryCore.toSummary, stats_of, total_weight_of]
  · norm_num [SampleSummaryCore.toSummary, stats_of, total_weight_of, sum_values,
      List.range_succ]
  · norm_num [SampleSummaryCore.toSummary, stats_of, total_weight_of, sum_values,
      sum_values_sq, List.range_succ]
    rw [show (25 : ℝ) = (5 : ℝ)^2 by norm_num, Real.sqrt_sq (by norm_num : (0:ℝ) ≤ 5)]
  · norm_num [SampleSummaryCore.toSummary, stats_of, total_weight_of, order_stats_at,
      pick, pickAux, byFirst, List.insertionSort, List.orderedInsert, List.range_succ]
  · norm_num [SampleSummaryCore.toSummary, stats_of, total_weight_of, order_stats_at,
      pick, pickAux, byFirst, List.insertionSort, List.orderedInsert, List.range_succ]
  · norm_num [SampleSummaryCore.toSummary, stats_of, total_weight_of, order_stats_at,
      pick, pickAux, byFirst, List.insertionSort, List.orderedInsert, List.range_succ]
    rfl

end SampleSummary

lemma map_div_sum (l : List ℚ) (S : ℚ) : (l.map (fun x => x / S)).sum = l.sum / S := by
  induction l with
  | nil => simp
  | cons x xs ih => simp [ih, add_div]

/-- Claim C1 (refuting the stated behaviour): both public entry points
evaluate `points[0].0.len()` before any validation, so on an empty batch
they panic with an index-out-of-bounds instead of returning the
empty-batch validation error. -/
theorem claim_C1_empty_batch_panics
    (cf1 : List (Point × ℚ) → (Point → Point → ℚ) → ℕ → Bool →
      Except RCFError (List Center))
    (cf2 : List (Point × ℚ) → (Point → Point → ℚ) → ℕ → ℚ → Bool → ℕ → Bool →
      Except RCFError (List Center))
    (distance : Point → Point → ℚ) (number_of_representatives : ℕ) (shrinkage : ℚ)
    (max_number : ℕ) (parallel_enabled : Bool) :
    summarize cf1 [] distance max_number parallel_enabled = .panicked ∧
    multi_summarize_ref cf2 [] distance number_of_representatives shrinkage
        max_number parallel_enabled = .panicked ∧
    (∀ e, (SummarizeOutcome.panicked : SummarizeOutcome) ≠ .failed e) :=
  ⟨rfl, rfl, fun _ h => SummarizeOutcome.noConfusion h⟩

/-- Claim C7: with `max_number = 0` and a valid batch, both entry points
skip clustering entirely: the returned aggregate is exactly the statistics
result, with empty `summary_points` and `relative_weight` and all the
statistics fields populated. -/
theorem claim_C7_max_number_zero
    (cf1 : List (Point × ℚ) → (Point → Point → ℚ) → ℕ → Bool →
      Except RCFError (List Center))
    (cf2 : List (Point × ℚ) → (Point → Point → ℚ) → ℕ → ℚ → Bool → ℕ → Bool →
      Except RCFError (List Center))
    (p0 : Point × ℚ) (rest : List (Point × ℚ)) (distance : Point → Point → ℚ)
    (number_of_representatives : ℕ) (shrinkage : ℚ) (parallel_enabled : Bool)
    (hd : 0 < p0.1.length)
    (h5 : 0 < total_weight_of (p0 :: rest))
    (h6 : ∀ p ∈ p0 :: rest, 0 ≤ p.2) :
    ∃ s, SampleSummary.from_points p0.1.length (p0 :: rest) LOWER_FRACTION
        UPPER_FRACTION = .ok s ∧
      summarize cf1 (p0 :: rest) distance 0 parallel_enabled = .ok s ∧
      multi_summarize_ref cf2 (p0 :: rest) distance number_of_representatives shrinkage 0
          parallel_enabled = .ok s ∧
      s.summary_points = [] ∧ s.relative_weight = [] ∧
      s.total_weight = total_weight_of (p0 :: rest) ∧
      s.mean.length = p0.1.length ∧ s.median.length = p0.1.length ∧
      s.lower.length = p0.1.length ∧ s.upper.length = p0.1.length ∧
      s.deviation.length = p0.1.length := by
  have hfp := SampleSummary.from_points_ok p0.1.length (p0 :: rest)
    LOWER_FRACTION UPPER_FRACTION (by simp) (by norm_num [LOWER_FRACTION])
    (by norm_num [UPPER_FRACTION]) hd h5 h6
  refine ⟨_, hfp, ?_, ?_, rfl, rfl, rfl, ?_, ?_, ?_, ?_, ?_⟩
  · simp only [summarize, hfp]
    norm_num
  · simp only [multi_summarize_ref, SampleSummary.from_references_eq_points, hfp]
    norm_num
  · simp [SampleSummaryCore.toSummary, SampleSummary.stats_of]
  · simp [SampleSummaryCore.toSummary, SampleSummary.stats_of]
  · simp [SampleSummaryCore.toSummary, SampleSummary.stats_of]
  · simp [SampleSummaryCore.toSummary, SampleSummary.stats_of]
  · simp [SampleSummaryCore.toSummary, SampleSummary.stats_of]

/-- Witness for C7 at the batch `[([0], 1), ([10], 1)]` with trivial
collaborators. -/
theorem claim_C7_max_number_zero_witness :
    0 < ([(0 : ℚ)], (1 : ℚ)).1.length ∧
    (∃ s, SampleSummary.from_points ([(0 : ℚ)], (1 : ℚ)).1.length
        (([(0 : ℚ)], (1 : ℚ)) :: [([10], 1)]) LOWER_FRACTION UPPER_FRACTION = .ok s ∧
      summarize (fun _ _ _ _ => .ok []) (([(0 : ℚ)], (1 : ℚ)) :: [([10], 1)])
          (fun _ _ => 0) 0 false = .ok s ∧
      multi_summarize_ref (fun _ _ _ _ _ _ _ => .ok [])
          (([(0 : ℚ)], (1 : ℚ)) :: [([10], 1)]) (fun _ _ => 0) 1 0 0 false = .ok s ∧
      s.summary_points = [] ∧ s.relative_weight = [] ∧
      s.total_weight = total_weight_of (([(0 : ℚ)], (1 : ℚ)) :: [([10], 1)]) ∧
      s.mean.length = ([(0 : ℚ)], (1 : ℚ)).1.length ∧
      s.median.length = ([(0 : ℚ)], (1 : ℚ)).1.length ∧
      s.lower.length = ([(0 : ℚ)], (1 : ℚ)).1.length ∧
      s.upper.length = ([(0 : ℚ)], (1 : ℚ)).1.length ∧
      s.deviation.length = ([(0 : ℚ)], (1 : ℚ)).1.length) :=
  ⟨by simp,
    claim_C7_max_number_zero (fun _ _ _ _ => .ok []) (fun _ _ _ _ _ _ _ => .ok [])
      ([(0 : ℚ)], (1 : ℚ)) [([10], 1)] (fun _ _ => 0) 1 0 false
      (by simp) (by norm_num [total_weight_of]) (by norm_num)⟩

/-- Claim C8 (spec-modelled collaborator): when `max_number > 0` and the
clustering collaborator returns `k` centers of nonnegative weight with
positive total weight, the aggregate carries `k` summary points and `k`
relative weights; the centers are sorted by weight descending, each summary
point is the corresponding center's first representative candidate, each
relative weight is the center's weight divided by the sum of all returned
centers' weights (hence nonnegative, summing to `1` exactly in the
rational model), and the relative weights are nonincreasing.  Both public
entry points (`summarize` and `multi_summarize_ref`) are covered: given the
same collaborator output they attach the identical typical-point lists. -/
theorem claim_C8_typical_points (p0 : Point × ℚ) (rest : List (Point × ℚ))
    (distance : Point → Point → ℚ) (number_of_representatives : ℕ) (shrinkage : ℚ)
    (max_number : ℕ) (parallel_enabled : Bool)
    (centers : List Center)
    (hd : 0 < p0.1.length)
    (h5 : 0 < total_weight_of (p0 :: rest))
    (h6 : ∀ p ∈ p0 :: rest, 0 ≤ p.2)
    (hmax : 0 < max_number)
    (hcw : ∀ c ∈ centers, 0 ≤ c.weight)
    (hcs : 0 < (centers.map Center.weight).sum) :
    ∃ s, summarize (fun _ _ _ _ => .ok centers) (p0 :: rest) distance max_number
        parallel_enabled = .ok s ∧
      multi_summarize_ref (fun _ _ _ _ _ _ _ => .ok centers) (p0 :: rest) distance
        number_of_representatives shrinkage max_number parallel_enabled = .ok s ∧
      s.summary_points = (List.insertionSort byWeightDesc centers).map
        Center.representative ∧
      s.relative_weight = (List.insertionSort byWeightDesc centers).map
        (fun c => c.weight / (centers.map Center.weight).sum) ∧
      s.summary_points.length = centers.length ∧
      s.relative_weight.length = centers.length ∧
      (∀ w ∈ s.relative_weight, 0 ≤ w) ∧
      s.relative_weight.sum = 1 ∧
      (∀ i j : ℕ, i ≤ j → j < s.relative_weight.length →
        s.relative_weight.getD j 0 ≤ s.relative_weight.getD i 0) := by
  have hfp := SampleSummary.from_points_ok p0.1.length (p0 :: rest)
    LOWER_FRACTION UPPER_FRACTION (by simp) (by norm_num [LOWER_FRACTION])
    (by norm_num [UPPER_FRACTION]) hd h5 h6
  have hperm : List.Perm (List.insertionSort byWeightDesc centers) centers :=
    List.perm_insertionSort byWeightDesc centers
  have hsum : ((List.insertionSort byWeightDesc centers).map Center.weight).sum
      = (centers.map Center.weight).sum := (hperm.map Center.weight).sum_eq
  have hspos : 0 < ((List.insertionSort byWeightDesc centers).map Center.weight).sum := by
    rw [hsum]; exact hcs
  refine ⟨SampleSummary.add_typical
      (SampleSummary.stats_of p0.1.length (p0 :: rest) LOWER_FRACTION
        UPPER_FRACTION).toSummary
      ((List.insertionSort byWeightDesc centers).map (fun c => c.representative))
      ((List.insertionSort byWeightDesc centers).map
        (fun c => c.weight /
          ((List.insertionSort byWeightDesc centers).map Center.weight).sum)),
    ?_, ?_, ?_, ?_, ?_, ?_, ?_, ?_, ?_⟩
  · simp only [summarize, hfp]
    rw [if_pos hmax]
  · simp only [multi_summarize_ref, SampleSummary.from_references_eq_points, hfp]
    rw [if_pos hmax]
  · rfl
  · simp only [SampleSummary.add_typical, hsum]
  · simp [SampleSummary.add_typical]
  · simp [SampleSummary.add_typical]
  · intro w hw
    simp only [SampleSummary.add_typical, List.mem_map] at hw
    obtain ⟨c, hc, rfl⟩ := hw
    exact div_nonneg (hcw c ((List.mem_insertionSort byWeightDesc).mp hc)) hspos.le
  · show ((List.insertionSort byWeightDesc centers).map
        (fun c => c.weight /
          ((List.insertionSort byWeightDesc centers).map Center.weight).sum)).sum = 1
    have hmm : (List.insertionSort byWeightDesc centers).map
        (fun c => c.weight /
          ((List.insertionSort byWeightDesc centers).map Center.weight).sum)
        = ((List.insertionSort byWeightDesc centers).map Center.weight).map
            (fun x => x /
              ((List.insertionSort byWeightDesc centers).map Center.weight).sum) := by
      rw [List.map_map]; rfl
    rw [hmm, map_div_sum, div_self (ne_of_gt hspos)]
  · intro i j hij hj
    have hjlen : j < (List.insertionSort byWeightDesc centers).length := by
      simpa [SampleSummary.add_typical] using hj
    have hilen : i < (List.insertionSort byWeightDesc centers).length :=
      lt_of_le_of_lt hij hjlen
    have hsorted : List.Sorted byWeightDesc (List.insertionSort byWeightDesc centers) :=
      List.sorted_insertionSort byWeightDesc centers
    have hrel := hsorted.rel_get_of_le (a := ⟨i, hilen⟩) (b := ⟨j, hjlen⟩)
      (Fin.mk_le_mk.mpr hij)
    have hwle : ((List.insertionSort byWeightDesc centers).get ⟨j, hjlen⟩).weight
        ≤ ((List.insertionSort byWeightDesc centers).get ⟨i, hilen⟩).weight := hrel
    show (((List.insertionSort byWeightDesc centers).map
        (fun c => c.weight /
          ((List.insertionSort byWeightDesc centers).map Center.weight).sum)).getD j 0)
      ≤ (((List.insertionSort byWeightDesc centers).map
        (fun c => c.weight /
          ((List.insertionSort byWeightDesc centers).map Center.weight).sum)).getD i 0)
    rw [List.getD_eq_getElem _ _ (by simpa using hjlen),
      List.getD_eq_getElem _ _ (by simpa using hilen),
      List.getElem_map, List.getElem_map]
    apply div_le_div_of_nonneg_right ?_ hspos.le
    · simpa [List.get_eq_getElem] using hwle

/-- Witness for C8: batch `[([0], 1)]`, two returned centers of weights `2`
and `1`. -/
theorem claim_C8_typical_points_witness :
    0 < ([(0 : ℚ)], (1 : ℚ)).1.length ∧
    0 < total_weight_of (([(0 : ℚ)], (1 : ℚ)) :: []) ∧
    (0 : ℕ) < 1 ∧
    0 < (([Center.mk [[3]] 2, Center.mk [[4]] 1]).map Center.weight).sum ∧
    (∃ s, summarize (fun _ _ _ _ => .ok [Center.mk [[3]] 2, Center.mk [[4]] 1])
        (([(0 : ℚ)], (1 : ℚ)) :: []) (fun _ _ => 0) 1 false = .ok s ∧
      multi_summarize_ref (fun _ _ _ _ _ _ _ => .ok [Center.mk [[3]] 2, Center.mk [[4]] 1])
        (([(0 : ℚ)], (1 : ℚ)) :: []) (fun _ _ => 0) 1 0 1 false = .ok s ∧
      s.summary_points = (List.insertionSort byWeightDesc
        [Center.mk [[3]] 2, Center.mk [[4]] 1]).map Center.representative ∧
      s.relative_weight = (List.insertionSort byWeightDesc
        [Center.mk [[3]] 2, Center.mk [[4]] 1]).map
        (fun c => c.weight /
          (([Center.mk [[3]] 2, Center.mk [[4]] 1]).map Center.weight).sum) ∧
      s.summary_points.length = ([Center.mk [[3]] 2, Center.mk [[4]] 1]).length ∧
      s.relative_weight.length = ([Center.mk [[3]] 2, Center.mk [[4]] 1]).length ∧
      (∀ w ∈ s.relative_weight, 0 ≤ w) ∧
      s.relative_weight.sum = 1 ∧
      (∀ i j : ℕ, i ≤ j → j < s.relative_weight.length →
        s.relative_weight.getD j 0 ≤ s.relative_weight.getD i 0)) :=
  ⟨by simp, by norm_num [total_weight_of], by norm_num, by norm_num,
    claim_C8_typical_points ([(0 : ℚ)], (1 : ℚ)) [] (fun _ _ => 0) 1 0 1 false
      [Center.mk [[3]] 2, Center.mk [[4]] 1]
      (by simp) (by norm_num [total_weight_of]) (by norm_num) (by norm_num)
      (by norm_num) (by norm_num)⟩
